import Mathlib

/-!
Verification of the retro-KP CRM automation backend.

Shallow embedding of the core services:
  * `services/sla_monitor_service.py`      (SLA escalation sweep)
  * `services/pipeline_service.py`         (keyword pipeline fallback)
  * `services/document_control_service.py` (document reminders)
  * `services/crm_service.py`              (token lifecycle, request retry,
                                            document tasks, pipeline scoping)

Timestamps are modelled as integer Unix seconds (`Int`); fractional-hour
quantities computed by the Python code with float division are modelled
exactly with `ℚ` (all threshold comparisons in the code fall on values where
IEEE doubles are exact).  Network I/O is modelled by passing the remote
responses in as explicit parameters; exceptions are modelled with `Except`.
Outbound writes (WhatsApp sends, task creation, note creation) are modelled
as an explicit effect list.
-/

namespace Retro

/-- Is `pat` a contiguous sublist of `l`? -/
def charsContain (pat : List Char) : List Char → Bool
  | [] => pat.isEmpty
  | c :: t => pat.isPrefixOf (c :: t) || charsContain pat t

/-- Python `pat in text` substring test. -/
def strContains (t pat : String) : Bool :=
  charsContain pat.data t.data

/-- Python `str.lower()` restricted to the alphabets this code base uses:
ASCII `A`–`Z` and Cyrillic `А`–`Я`, `Ё`. -/
def pyLowerChar (c : Char) : Char :=
  if 65 ≤ c.toNat ∧ c.toNat ≤ 90 then Char.ofNat (c.toNat + 32)
  else if 0x410 ≤ c.toNat ∧ c.toNat ≤ 0x42F then Char.ofNat (c.toNat + 0x20)
  else if c.toNat = 0x401 then Char.ofNat 0x451
  else c

/-- Python `str.lower()` over a whole string. -/
def pyLower (s : String) : String :=
  ⟨s.data.map pyLowerChar⟩

/-- Python truthiness of an `Optional[int]` (`None` and `0` are falsy). -/
def pyTruthyOptInt : Option Int → Bool
  | some v => v ≠ 0
  | none => false

/-- Error taxonomy of `crm_service.py`: the typed `CRMConfigurationError`
versus a generic `RuntimeError`. -/
inductive CRMError
  | configError
  | runtimeError
deriving Repr, DecidableEq

/-! ### Outbound effects

Every externally visible write the services perform.  Read-only GETs (lead
name lookups) are elided: they carry no state.  Message bodies are not part
of any claim, so notifications carry only their urgency flag; tasks and
notes carry the fields the claims mention. -/

/-- One outbound write. -/
inductive CRMEffect
  | whatsapp (urgent : Bool)
  | createTask (text : String) (completeTill : Int) (entityId : Option Int)
      (responsibleId : Option Int)
  | leadNote (leadId : Int) (title : String)
  | patchLead (leadId : Int)
  | completeTask (text : String)
deriving Repr, DecidableEq

/-- Is the effect a WhatsApp notification? -/
def CRMEffect.isNotify : CRMEffect → Bool
  | .whatsapp _ => true
  | _ => false

/-- Is the effect a task creation? -/
def CRMEffect.isCreateTask : CRMEffect → Bool
  | .createTask _ _ _ _ => true
  | _ => false

/-- Is the effect a lead-note append? -/
def CRMEffect.isLeadNote : CRMEffect → Bool
  | .leadNote _ _ => true
  | _ => false

/-- Does the effect mutate an existing task or lead (as opposed to creating
new records / sending messages)?  The sweep never emits these. -/
def CRMEffect.isMutation : CRMEffect → Bool
  | .patchLead _ => true
  | .completeTask _ => true
  | _ => false

/-! ## SLA monitor (`sla_monitor_service.py`) -/

/-- A task as returned by the amoCRM tasks endpoint (fields the sweep
reads). -/
structure SLATask where
  is_completed : Bool := false
  complete_till : Option Int := none
  text : String := ""
  entity_id : Option Int := none
  responsible_user_id : Option Int := none
deriving Repr, DecidableEq

/-- Tallies returned by `check_overdue_tasks`. -/
structure SweepResult where
  checked : Nat
  overdue : Nat
  urgent : Nat
  notifications_sent : Nat
deriving Repr, DecidableEq

/-- Model of `_handle_overdue_task`: standard notification, renewal task due +2h with
the original task's responsible user, audit note on the lead.  The lead-name
GET (read-only, failure swallowed) is elided. -/
def handleOverdueTask (now : Int) (task : SLATask) : List CRMEffect :=
  [CRMEffect.whatsapp false,
   CRMEffect.createTask ("Повтор: " ++ task.text) (now + 7200)
     task.entity_id task.responsible_user_id]
  ++ match task.entity_id with
     | some id => [CRMEffect.leadNote id "SLA: Просроченная задача"]
     | none => []

/-- Model of `_handle_urgent_task`: urgent notification and audit note; no renewal
task. -/
def handleUrgentTask (task : SLATask) : List CRMEffect :=
  [CRMEffect.whatsapp true]
  ++ match task.entity_id with
     | some id => [CRMEffect.leadNote id "SLA: Критическая просрочка"]
     | none => []

/-- Exact model of `overdue_hours = (now - due_time).total_seconds() / 3600`. -/
def overdueHoursOf (now ct : Int) : ℚ := ((now - ct : Int) : ℚ) / 3600

/-- Condition `overdue_hours >= self.urgent_threshold_hours` (4). -/
def urgentElapsed (now ct : Int) : Prop := 4 ≤ overdueHoursOf now ct

/-- Condition `overdue_hours >= self.overdue_threshold_hours` (1). -/
def overdueElapsed (now ct : Int) : Prop := 1 ≤ overdueHoursOf now ct

instance (now ct : Int) : Decidable (urgentElapsed now ct) :=
  decidable_of_iff (14400 ≤ now - ct) (by
    unfold urgentElapsed overdueHoursOf
    rw [le_div_iff₀ (by norm_num : (0:ℚ) < 3600),
        show ((4:ℚ) * 3600) = ((14400 : Int) : ℚ) by norm_num]
    exact Int.cast_le.symm)

instance (now ct : Int) : Decidable (overdueElapsed now ct) :=
  decidable_of_iff (3600 ≤ now - ct) (by
    unfold overdueElapsed overdueHoursOf
    rw [le_div_iff₀ (by norm_num : (0:ℚ) < 3600),
        show ((1:ℚ) * 3600) = ((3600 : Int) : ℚ) by norm_num]
    exact Int.cast_le.symm)

/-- Loop body of `check_overdue_tasks`.  A `complete_till` of `0` is skipped
because Python's `if not complete_till` treats `0` as missing. -/
def sweepStep (now : Int) (acc : SweepResult × List CRMEffect) (task : SLATask) :
    SweepResult × List CRMEffect :=
  if task.is_completed then acc
  else
    match task.complete_till with
    | none => acc
    | some ct =>
      if ct = 0 then acc
      else if now ≤ ct then acc
      else
        if urgentElapsed now ct then
          (⟨acc.1.checked, acc.1.overdue, acc.1.urgent + 1,
            acc.1.notifications_sent + 1⟩,
           acc.2 ++ handleUrgentTask task)
        else if overdueElapsed now ct then
          (⟨acc.1.checked, acc.1.overdue + 1, acc.1.urgent,
            acc.1.notifications_sent + 1⟩,
           acc.2 ++ handleOverdueTask now task)
        else acc

/-- The sweep over an already-fetched task list. -/
def runSweep (now : Int) (tasks : List SLATask) : SweepResult × List CRMEffect :=
  tasks.foldl (sweepStep now) (⟨tasks.length, 0, 0, 0⟩, [])

/-- Model of `check_overdue_tasks`: the fetch result is passed in; a typed
configuration error is swallowed and yields all-zero counts with no effects,
any other fetch error propagates. -/
def checkOverdueTasks (now : Int) (fetched : Except CRMError (List SLATask)) :
    Except CRMError (SweepResult × List CRMEffect) :=
  match fetched with
  | .error .configError => .ok (⟨0, 0, 0, 0⟩, [])
  | .error e => .error e
  | .ok tasks => .ok (runSweep now tasks)

/-! ## Pipeline detection fallback (`pipeline_service.py`) -/

/-- The three pipeline categories. -/
inductive PipelineType
  | sales
  | nku
  | services
deriving Repr, DecidableEq

/-- Configured pipeline ids (from environment). -/
structure PipelineConfig where
  salesPipelineId : Option Int := none
  nkuPipelineId : Option Int := none
  servicesPipelineId : Option Int := none
  defaultPipelineId : Option Int := none
deriving Repr, DecidableEq

/-- Python `mapping.get(pipeline_type) or self.default_pipeline_id`
(`0` is falsy and falls through to the default). -/
def getPipelineIdFor (cfg : PipelineConfig) (pt : PipelineType) : Option Int :=
  let v := match pt with
    | .sales => cfg.salesPipelineId
    | .nku => cfg.nkuPipelineId
    | .services => cfg.servicesPipelineId
  if pyTruthyOptInt v then v else cfg.defaultPipelineId

/-- Result of pipeline detection (the free-text `reason` field is elided). -/
structure PipelineDecision where
  pipeline_type : PipelineType
  pipeline_id : Option Int
  confidence : ℚ
deriving Repr, DecidableEq

/-- NKU keyword set from `_keyword_detection`. -/
def nkuKeywords : List String :=
  ["нку", "изготовление", "производство", "на заказ", "мощность", "ввод",
   "ip54", "ip65", "технические параметры", "спецификация"]

/-- Services keyword set from `_keyword_detection`. -/
def servicesKeywords : List String :=
  ["выезд", "монтаж", "установка", "ремонт", "обслуживание", "настройка",
   "диагностика", "адрес", "визит"]

/-- Model of `_keyword_detection` (float constants `0.4`, `0.1`, `0.7` modelled
exactly in `ℚ`; at every branch point the float computation agrees). -/
def keywordDetection (cfg : PipelineConfig) (subject message : String) :
    PipelineDecision :=
  let text := pyLower (subject ++ " " ++ message)
  let nkuScore := nkuKeywords.countP (fun k => strContains text k)
  let servicesScore := servicesKeywords.countP (fun k => strContains text k)
  if nkuScore > servicesScore ∧ nkuScore > 0 then
    ⟨.nku, getPipelineIdFor cfg .nku,
     min (7/10) (2/5 + (nkuScore : ℚ) * (1/10))⟩
  else if servicesScore > 0 then
    ⟨.services, getPipelineIdFor cfg .services,
     min (7/10) (2/5 + (servicesScore : ℚ) * (1/10))⟩
  else
    ⟨.sales, getPipelineIdFor cfg .sales, 1/2⟩

/-- NKU keyword count of a raw (subject, message) pair. -/
def nkuScoreOf (subject message : String) : Nat :=
  nkuKeywords.countP (fun k => strContains (pyLower (subject ++ " " ++ message)) k)

/-- Services keyword count of a raw (subject, message) pair. -/
def servicesScoreOf (subject message : String) : Nat :=
  servicesKeywords.countP (fun k => strContains (pyLower (subject ++ " " ++ message)) k)

/-! ## Document control (`document_control_service.py`) -/

/-- A lead note as returned by the notes endpoint (`params.text` and
`created_at`). -/
structure LeadNote where
  text : String
  created_at : Option Int := none
deriving Repr, DecidableEq

/-- Result of `check_document_files` (per-category presence flags, in the
dict's insertion order, plus the `complete` conjunction). -/
structure FileCheck where
  checklist : List (String × Bool)
  complete : Bool
deriving Repr, DecidableEq

/-- The marker test of `_get_last_reminder_time`. -/
def lastReminderMarker (text : String) : Bool :=
  strContains text "Напоминание о документах" ||
  strContains text "не хватает документов"

/-- The marker test of `_get_days_since_first_reminder` (note: *narrower*
than `lastReminderMarker`). -/
def firstReminderMarker (text : String) : Bool :=
  strContains text "не хватает документов"

/-- Extract a usable `created_at` from a note matching `marker`; `None` and
`0` timestamps are falsy and skipped. -/
def noteReminderTime (marker : String → Bool) (note : LeadNote) : Option Int :=
  if marker note.text then
    match note.created_at with
    | some t => if t = 0 then none else some t
    | none => none
  else none

/-- Model of `_get_last_reminder_time`: scan the notes in reverse order, return the
timestamp of the first match. -/
def getLastReminderTime (notes : List LeadNote) : Option Int :=
  (notes.reverse.filterMap (noteReminderTime lastReminderMarker)).head?

/-- Model of `_get_days_since_first_reminder`: scan the notes in order for the first
match and return whole days elapsed (`int()` truncates toward zero); `0`
when nothing matches. -/
def getDaysSinceFirstReminder (now : Int) (notes : List LeadNote) : Int :=
  match (notes.filterMap (noteReminderTime firstReminderMarker)).head? with
  | some t => Int.tdiv (now - t) 86400
  | none => 0

/-- Human labels of `_create_missing_document_tasks`. -/
def docNames : List (String × String) :=
  [("proposal", "Коммерческое предложение"),
   ("invoice", "Счет"),
   ("contract", "Договор"),
   ("waybill", "Накладная"),
   ("act", "Акт"),
   ("invoice_factura", "Счет-фактура или УПД")]

/-- Model of `_create_missing_document_tasks`: one 8-hour task per missing document,
deduplicated by exact task text against the lead's existing tasks. -/
def createMissingDocumentTasks (now : Int) (leadId : Int)
    (defaultResp : Option Int) (existingTexts : List String)
    (missing : List String) : List CRMEffect :=
  missing.filterMap fun key =>
    let name := ((docNames.lookup key).getD key)
    let text := "Прикрепить: " ++ name
    if text ∈ existingTexts then none
    else some (CRMEffect.createTask text (now + 28800) (some leadId) defaultResp)

/-- Exact text of the note `_record_reminder_time` posts via
`add_lead_note` (title, separator, details; the trailing
`isoformat()` rendering of the time is passed in as `timeRepr`). -/
def recordedReminderNoteText (timeRepr : String) : String :=
  "Напоминание о документах\n---\nОтправлено напоминание менеджеру о недостающих документах.\nВремя: "
  ++ timeRepr

/-- Exact model of `hours_since_reminder = (now - last_reminder).total_seconds() / 3600`. -/
def hoursSinceReminder (now last : Int) : ℚ := ((now - last : Int) : ℚ) / 3600

/-- Condition `hours_since_reminder < self.reminder_interval_hours` (24). -/
def underCooldown (now last : Int) : Prop := hoursSinceReminder now last < 24

instance (now last : Int) : Decidable (underCooldown now last) :=
  decidable_of_iff (now - last < 86400) (by
    unfold underCooldown hoursSinceReminder
    rw [div_lt_iff₀ (by norm_num : (0:ℚ) < 3600),
        show ((24:ℚ) * 3600) = ((86400 : Int) : ℚ) by norm_num]
    exact Int.cast_lt.symm)

/-- Outcome of `check_and_remind` (the fields each status carries). -/
inductive DocStatus
  | complete
  | unknown
  | reminderSentRecently (hoursUntilNext : ℚ)
  | reminderSent (missing : List String)
deriving Repr, DecidableEq

/-- Model of `check_and_remind`, as a pure function of the remote state it reads:
the file check result, the lead's notes, the lead's existing task texts and
the clock.  The note posted by `_record_reminder_time` is visible to the
subsequent `_get_days_since_first_reminder` re-fetch, hence the
`notes ++ [...]`.  The read-only lead-name GET is elided. -/
def checkAndRemind (now : Int) (leadId : Int) (defaultResp : Option Int)
    (fc : FileCheck) (notes : List LeadNote) (existingTexts : List String)
    (timeRepr : String) : DocStatus × List CRMEffect :=
  if fc.complete then (.complete, [])
  else
    let missing := (fc.checklist.filter (fun p => !p.2)).map (·.1)
    if missing.isEmpty then (.unknown, [])
    else
      let proceed : DocStatus × List CRMEffect :=
        let taskEffs := createMissingDocumentTasks now leadId defaultResp
          existingTexts missing
        let notesAfter := notes ++
          [⟨recordedReminderNoteText timeRepr, some now⟩]
        let days := getDaysSinceFirstReminder now notesAfter
        let urgentEffs : List CRMEffect :=
          if 3 ≤ days then [CRMEffect.whatsapp true] else []
        (.reminderSent missing,
         [CRMEffect.whatsapp false] ++ taskEffs
           ++ [CRMEffect.leadNote leadId "Напоминание о документах"]
           ++ urgentEffs
           ++ [CRMEffect.leadNote leadId "Статус закрывающих документов"])
      match getLastReminderTime notes with
      | some last =>
        if underCooldown now last then
          (.reminderSentRecently (24 - hoursSinceReminder now last), [])
        else proceed
      | none => proceed

/-! ## Token lifecycle (`crm_service.py`, `_ensure_access_token` /
`_refresh_token`) -/

/-- The OAuth endpoint's answer to a refresh POST. -/
structure RefreshResponse where
  isError : Bool := false
  accessTokenField : Option String := none
  refreshTokenField : Option String := none
  expiresIn : Option Int := none
deriving Repr, DecidableEq

/-- In-memory token state, plus a ghost counter of *network* refresh
exchanges actually performed. -/
structure TokenState where
  accessTok : Option String
  refreshTok : Option String
  expiresAt : Option Int
  networkRefreshes : Nat := 0
deriving Repr, DecidableEq

/-- Check `self._expires_at and now < self._expires_at - timedelta(minutes=2)`. -/
def tokenFresh (now : Int) (s : TokenState) : Bool :=
  match s.expiresAt with
  | some e => decide (now < e - 120)
  | none => false

/-- Body of `_refresh_token` (the critical section guarded by
`self._token_lock`): double-checked expiry, then the network exchange.
The state update mirrors the source: `access_token = data.get("access_token")`,
`refresh_token = data.get("refresh_token", self.refresh_token)`,
`expires_at = now + data.get("expires_in", 3600)`, then persist. -/
def refreshTokenLocked (now : Int) (resp : RefreshResponse) (s : TokenState) :
    Except CRMError TokenState :=
  if tokenFresh now s then .ok s
  else
    match s.refreshTok with
    | none => .error .configError
    | some rt =>
      if resp.isError then .error .runtimeError
      else .ok
        { accessTok := resp.accessTokenField
          refreshTok := some (resp.refreshTokenField.getD rt)
          expiresAt := some (now + resp.expiresIn.getD 3600)
          networkRefreshes := s.networkRefreshes + 1 }

/-- Model of `_ensure_access_token`: fail if no token at all, fast-path return when
fresh, otherwise go through the locked refresh. -/
def ensureAccessToken (now : Int) (resp : RefreshResponse) (s : TokenState) :
    Except CRMError TokenState :=
  match s.accessTok with
  | none => .error .configError
  | some _ => if tokenFresh now s then .ok s else refreshTokenLocked now resp s

/-- N concurrent callers, all past their lock-free expiry observation,
executing the lock-serialized `_ensure_access_token` body one after another
(the `asyncio.Lock` admits one critical section at a time; the callers are
indistinguishable, so the schedule is just the count).  Returns the final
shared state and the access token each caller ends up holding. -/
def tokenBurst (now : Int) (resp : RefreshResponse) :
    Nat → TokenState → Except CRMError (TokenState × List (Option String))
  | 0, s => .ok (s, [])
  | n + 1, s =>
    match ensureAccessToken now resp s with
    | .error e => .error e
    | .ok s1 =>
      match tokenBurst now resp n s1 with
      | .error e => .error e
      | .ok (sF, toks) => .ok (sF, s1.accessTok :: toks)

/-! ## Authenticated request retry (`crm_service.py`, `_request`) -/

/-- Python `httpx.Response.is_error` (4xx and 5xx). -/
def isErrStatus (st : Nat) : Bool := decide (400 ≤ st)

/-- Ghost trace of one `_request` call: every HTTP attempt (the bearer
token sent and the status received) and the number of `_refresh_token`
invocations. -/
structure RequestTrace where
  attempts : List (Option String × Nat)
  refreshInvocations : Nat
deriving Repr, DecidableEq

/-- Model of `_request`: ensure a token, send; on a 401 invoke `_refresh_token` and
resend once; raise `RuntimeError` on a final error status.  `now0` is the
clock at the initial ensure, `now1` the clock when the 401 is handled
(time passes during the HTTP call); `st1`, `st2` are the statuses the
server answers the first and (potential) second attempt with. -/
def requestFlow (now0 now1 : Int) (st1 st2 : Nat) (resp : RefreshResponse)
    (s : TokenState) : Except CRMError TokenState × RequestTrace :=
  match ensureAccessToken now0 resp s with
  | .error e => (.error e, ⟨[], 0⟩)
  | .ok s1 =>
    if st1 = 401 then
      match refreshTokenLocked now1 resp s1 with
      | .error e => (.error e, ⟨[(s1.accessTok, st1)], 1⟩)
      | .ok s2 =>
        (if isErrStatus st2 then .error .runtimeError else .ok s2,
         ⟨[(s1.accessTok, st1), (s2.accessTok, st2)], 1⟩)
    else
      (if isErrStatus st1 then .error .runtimeError else .ok s1,
       ⟨[(s1.accessTok, st1)], 0⟩)

/-! ## Document task ensure (`crm_service.py`, `_ensure_document_tasks`) -/

/-- The explicit completion checklist attached to an interaction. -/
structure DocumentChecklist where
  proposal_sent : Bool := false
  invoice_sent : Bool := false
  contract_signed : Bool := false
  closing_documents_ready : Bool := false
deriving Repr, DecidableEq

/-- The label/flag dictionary built at the top of `_ensure_document_tasks`,
in insertion order. -/
def checklistPairs (d : DocumentChecklist) : List (String × Bool) :=
  [("Коммерческое предложение", d.proposal_sent),
   ("Счет", d.invoice_sent),
   ("Договор", d.contract_signed),
   ("Закрывающие документы", d.closing_documents_ready)]

/-- A task record as created against the tasks endpoint. -/
structure TaskRec where
  text : String
  complete_till : Int
  entity_id : Int
  responsible_user_id : Option Int
deriving Repr, DecidableEq

/-- Model of `_ensure_document_tasks`: for every unchecked checklist entry compose
`"Отправить: <label>"`, skip when an identical-text task already exists for
the lead, otherwise create it due 8 hours out.  Returns the tasks created
by this run. -/
def ensureDocumentTasks (now : Int) (leadId : Int) (respId : Option Int)
    (existing : List TaskRec) (docs : DocumentChecklist) : List TaskRec :=
  (checklistPairs docs).filterMap fun p =>
    if p.2 then none
    else if ("Отправить: " ++ p.1) ∈ existing.map (·.text) then none
    else some ⟨"Отправить: " ++ p.1, now + 28800, leadId, respId⟩

/-! ## Pipeline scoping in `register_interaction` (`crm_service.py`,
lines 114–124) -/

/-- The mutable service configuration the scoping touches. -/
structure CrmConfigState where
  pipeline_id : Option Int
deriving Repr, DecidableEq

/-- The `detected_pipeline_id` override around `_ensure_open_lead`:
set when truthy, run lead resolution (which reads `self.pipeline_id`),
restore in `finally` whether or not resolution raised.
`resolveLead` abstracts `_ensure_open_lead` as a function of the
pipeline id it observes. -/
def withDetectedPipeline (s : CrmConfigState) (detected : Option Int)
    (resolveLead : Option Int → Except CRMError Int) :
    Except CRMError Int × CrmConfigState :=
  if pyTruthyOptInt detected then
    let s1 : CrmConfigState := { pipeline_id := detected }
    (resolveLead s1.pipeline_id, { s1 with pipeline_id := s.pipeline_id })
  else
    (resolveLead s.pipeline_id, s)

/-! ### Sample remote states used by concrete instances -/

/-- A file check with `proposal` missing and everything else attached. -/
def sampleFileCheck : FileCheck :=
  ⟨[("proposal", false), ("invoice", true), ("contract", true),
    ("waybill", true), ("act", true), ("invoice_factura", true)], false⟩

/-- A lead whose only note is the reminder note recorded at
`T = 1700000000`. -/
def sampleNotes : List LeadNote :=
  [⟨recordedReminderNoteText "2023-11-14T22:13:20+00:00", some 1700000000⟩]

/-! # Theorems

Shared auxiliary lemmas first, then one theorem per claim (with a witness
instance where the claim theorem carries hypotheses). -/

/-- The 4-hour float threshold, as integer seconds. -/
theorem urgentElapsed_iff (now ct : Int) : urgentElapsed now ct ↔ 14400 ≤ now - ct := by
  unfold urgentElapsed overdueHoursOf
  rw [le_div_iff₀ (by norm_num : (0:ℚ) < 3600),
      show ((4:ℚ) * 3600) = ((14400 : Int) : ℚ) by norm_num]
  exact Int.cast_le

/-- The 1-hour float threshold, as integer seconds. -/
theorem overdueElapsed_iff (now ct : Int) : overdueElapsed now ct ↔ 3600 ≤ now - ct := by
  unfold overdueElapsed overdueHoursOf
  rw [le_div_iff₀ (by norm_num : (0:ℚ) < 3600),
      show ((1:ℚ) * 3600) = ((3600 : Int) : ℚ) by norm_num]
  exact Int.cast_le

/-- The 24-hour float cool-down, as integer seconds. -/
theorem underCooldown_iff (now last : Int) : underCooldown now last ↔ now - last < 86400 := by
  unfold underCooldown hoursSinceReminder
  rw [div_lt_iff₀ (by norm_num : (0:ℚ) < 3600),
      show ((24:ℚ) * 3600) = ((86400 : Int) : ℚ) by norm_num]
  exact Int.cast_lt

/-- C3: the sweep classifies an incomplete task with a (non-null) due
timestamp purely from `elapsed = now - due`: `elapsed ≥ 4h` is counted
urgent, `1h ≤ elapsed < 4h` is counted overdue, anything below the 1-hour
threshold (including not-yet-due tasks) is not counted; completed tasks and
tasks without a due timestamp are never counted; and a sweep at `T+5h` over
a single task due at `T` reports `urgent = 1`, `overdue = 0`. -/
theorem sla_sweep_classification (now ct : Int) (hct : ct ≠ 0) :
    ((14400 ≤ now - ct →
        (runSweep now [{ is_completed := false, complete_till := some ct }]).1
          = ⟨1, 0, 1, 1⟩) ∧
     (3600 ≤ now - ct → now - ct < 14400 →
        (runSweep now [{ is_completed := false, complete_till := some ct }]).1
          = ⟨1, 1, 0, 1⟩) ∧
     (now - ct < 3600 →
        (runSweep now [{ is_completed := false, complete_till := some ct }]).1
          = ⟨1, 0, 0, 0⟩)) ∧
    (∀ t : SLATask, t.is_completed = true → runSweep now [t] = (⟨1, 0, 0, 0⟩, [])) ∧
    (∀ t : SLATask, t.is_completed = false → t.complete_till = none →
        runSweep now [t] = (⟨1, 0, 0, 0⟩, [])) ∧
    (runSweep 1700018000 [{ is_completed := false, complete_till := some 1700000000 }]).1
      = ⟨1, 0, 1, 1⟩ := by
  refine ⟨⟨?_, ?_, ?_⟩, ?_, ?_, by decide⟩
  · intro h
    have h1 : ¬ (now ≤ ct) := by omega
    have h2 : urgentElapsed now ct := (urgentElapsed_iff now ct).mpr h
    simp [runSweep, sweepStep, hct, h1, h2]
  · intro h h'
    have h1 : ¬ (now ≤ ct) := by omega
    have h2 : ¬ urgentElapsed now ct := by rw [urgentElapsed_iff]; omega
    have h3 : overdueElapsed now ct := (overdueElapsed_iff now ct).mpr h
    simp [runSweep, sweepStep, hct, h1, h2, h3]
  · intro h
    have h2 : ¬ urgentElapsed now ct := by rw [urgentElapsed_iff]; omega
    have h3 : ¬ overdueElapsed now ct := by rw [overdueElapsed_iff]; omega
    by_cases h1 : now ≤ ct <;> simp [runSweep, sweepStep, hct, h1, h2, h3]
  · intro t ht
    simp [runSweep, sweepStep, ht]
  · intro t ht hc
    simp [runSweep, sweepStep, ht, hc]

/-- C3 witness: the theorem applied at the `T+5h` instance. -/
theorem sla_sweep_classification_applied :
    (runSweep 1700018000 [{ is_completed := false, complete_till := some 1700000000 }]).1
      = ⟨1, 0, 1, 1⟩ :=
  (sla_sweep_classification 1700018000 1700000000 (by decide)).1.1 (by decide)

/-- Once the shared state is fresh and holds `tok`, every further caller in
the burst passes the fast path, changes nothing, and reads `tok`. -/
theorem tokenBurst_stable (now : Int) (resp : RefreshResponse) (tok : String)
    (m : Nat) :
    ∀ s : TokenState, tokenFresh now s = true → s.accessTok = some tok →
      tokenBurst now resp m s = .ok (s, List.replicate m (some tok)) := by
  induction m with
  | zero => intro s _ _; simp [tokenBurst]
  | succ m ih =>
    intro s hf ha
    simp [tokenBurst, ensureAccessToken, ha, hf, ih s hf ha, List.replicate]

/-- C1: N concurrent callers that all observed a stale token serialize
through the refresh critical section; the first performs the single network
exchange, every later caller passes the re-check inside the lock, and all N
end up holding the post-refresh token.  Hypotheses: the state is stale with
both tokens configured, the refresh endpoint answers successfully with an
access token and a lifetime beyond the 2-minute safety margin. -/
theorem single_flight_refresh (now : Int) (resp : RefreshResponse)
    (s : TokenState) (n : Nat) (tok rt : String)
    (hstale : tokenFresh now s = false)
    (ha : s.accessTok.isSome = true)
    (hrt : s.refreshTok = some rt)
    (hok : resp.isError = false)
    (hnew : resp.accessTokenField = some tok)
    (hexp : 120 < resp.expiresIn.getD 3600)
    (hn : 1 ≤ n) :
    ∃ sF, tokenBurst now resp n s = .ok (sF, List.replicate n (some tok)) ∧
      sF.networkRefreshes = s.networkRefreshes + 1 ∧
      sF.accessTok = some tok := by
  obtain ⟨m, rfl⟩ : ∃ m, n = m + 1 := ⟨n - 1, by omega⟩
  obtain ⟨a, ha'⟩ := Option.isSome_iff_exists.mp ha
  set s1 : TokenState :=
    ⟨resp.accessTokenField, some (resp.refreshTokenField.getD rt),
     some (now + resp.expiresIn.getD 3600), s.networkRefreshes + 1⟩ with hs1
  have href : refreshTokenLocked now resp s = .ok s1 := by
    simp [refreshTokenLocked, hstale, hrt, hok, hs1]
  have hfresh1 : tokenFresh now s1 = true := by
    simp only [tokenFresh, hs1, decide_eq_true_eq]
    omega
  have hacc1 : s1.accessTok = some tok := by simp [hs1, hnew]
  refine ⟨s1, ?_, by simp [hs1], hacc1⟩
  simp [tokenBurst, ensureAccessToken, ha', hstale, href, hacc1, hnew,
        tokenBurst_stable now resp tok m s1 hfresh1 hacc1, List.replicate]

/-- C1 witness: a 3-caller burst from a stale state performs one network
refresh and hands every caller the new token. -/
theorem single_flight_refresh_applied :
    ∃ sF, tokenBurst 0 ⟨false, some "new", none, none⟩ 3
        ⟨some "old", some "ref", some 0, 0⟩
      = .ok (sF, List.replicate 3 (some "new")) ∧
      sF.networkRefreshes = 0 + 1 ∧
      sF.accessTok = some "new" :=
  single_flight_refresh 0 ⟨false, some "new", none, none⟩
    ⟨some "old", some "ref", some 0, 0⟩ 3 "new" "ref"
    (by decide) (by decide) rfl rfl rfl (by decide) (by decide)

/-- One pass through the `_refresh_token` critical section performs at most
one network exchange, and none when the double check finds the token
fresh. -/
theorem refreshTokenLocked_count (now : Int) (resp : RefreshResponse)
    (s s' : TokenState) (h : refreshTokenLocked now resp s = .ok s') :
    s'.networkRefreshes ≤ s.networkRefreshes + 1 ∧
    (tokenFresh now s = true → s' = s) := by
  unfold refreshTokenLocked at h
  split at h
  · cases h
    exact ⟨by omega, fun _ => rfl⟩
  · rename_i hf
    cases hrt : s.refreshTok with
    | none => rw [hrt] at h; cases h
    | some rt =>
      rw [hrt] at h
      by_cases he : resp.isError = true
      · simp [he] at h
      · simp only [he, if_false, Bool.false_eq_true] at h
        cases h
        exact ⟨by simp, fun hfr => absurd hfr hf⟩

/-- C2 counterexample: the claim promises "exactly one forced token refresh"
on a 401.  With a locally fresh expiry (`now < expiry − 2 min`), a call
answered 401 then 200 succeeds after the single retry, but the 401-triggered
`_refresh_token` invocation passes its double check and performs **zero**
network refreshes — the retry re-sends the very same bearer token. -/
theorem request_retry_cex :
    requestFlow 1700000000 1700000000 401 200
        ⟨false, some "fresh", none, none⟩
        ⟨some "tok", some "ref", some 1700010000, 0⟩
      = (.ok ⟨some "tok", some "ref", some 1700010000, 0⟩,
         ⟨[(some "tok", 401), (some "tok", 200)], 1⟩) ∧
    (⟨some "tok", some "ref", some 1700010000, 0⟩ : TokenState).networkRefreshes
      = 0 := by
  exact ⟨rfl, rfl⟩

/-- C2 (amended): a 401 triggers exactly one invocation of the
(double-checked, hence conditional) refresh routine and exactly one retry of
the same request; the routine performs at most one network refresh (and none
when the cached expiry is still outside the safety margin); a 401 followed
by a success status succeeds, a 401 followed by any error status fails with
a runtime error, and there is never a third attempt. -/
theorem request_retry (now0 now1 : Int) (st1 st2 : Nat)
    (resp : RefreshResponse) (s s1 : TokenState)
    (h1 : ensureAccessToken now0 resp s = .ok s1) :
    ((requestFlow now0 now1 st1 st2 resp s).2.attempts.length ≤ 2) ∧
    (st1 ≠ 401 →
       (requestFlow now0 now1 st1 st2 resp s).2 = ⟨[(s1.accessTok, st1)], 0⟩) ∧
    (st1 = 401 →
       (requestFlow now0 now1 st1 st2 resp s).2.refreshInvocations = 1) ∧
    (∀ s2, st1 = 401 → refreshTokenLocked now1 resp s1 = .ok s2 →
       (requestFlow now0 now1 st1 st2 resp s).2.attempts
           = [(s1.accessTok, 401), (s2.accessTok, st2)] ∧
       s2.networkRefreshes ≤ s1.networkRefreshes + 1 ∧
       (isErrStatus st2 = false →
          (requestFlow now0 now1 st1 st2 resp s).1 = .ok s2) ∧
       (isErrStatus st2 = true →
          (requestFlow now0 now1 st1 st2 resp s).1 = .error .runtimeError)) := by
  refine ⟨?_, ?_, ?_, ?_⟩
  · by_cases h401 : st1 = 401
    · subst h401
      cases hr : refreshTokenLocked now1 resp s1 with
      | error e => simp [requestFlow, h1, hr]
      | ok s2 =>
        by_cases he : isErrStatus st2 = true <;>
          simp [requestFlow, h1, hr, he]
    · simp [requestFlow, h1, h401]
  · intro h401
    by_cases he : isErrStatus st1 = true <;>
      simp [requestFlow, h1, h401, he]
  · intro h401
    subst h401
    cases hr : refreshTokenLocked now1 resp s1 with
    | error e => simp [requestFlow, h1, hr]
    | ok s2 =>
      by_cases he : isErrStatus st2 = true <;>
        simp [requestFlow, h1, hr, he]
  · intro s2 h401 hr
    subst h401
    have hcount := refreshTokenLocked_count now1 resp s1 s2 hr
    by_cases he : isErrStatus st2 = true <;>
      simp [requestFlow, h1, hr, he, hcount.1]

/-- C2 witness: the amended theorem applied at a 401-then-200 exchange. -/
theorem request_retry_applied :
    (requestFlow 0 0 401 200 ⟨false, some "n", none, none⟩
        ⟨some "t", some "r", some 1000, 0⟩).2.refreshInvocations = 1 :=
  (request_retry 0 0 401 200 ⟨false, some "n", none, none⟩
      ⟨some "t", some "r", some 1000, 0⟩
      ⟨some "t", some "r", some 1000, 0⟩ rfl).2.2.1 rfl

/-- C10: when task fetching raises the typed configuration error, the sweep
swallows it and returns all-zero counts with no notifications and no
writes. -/
theorem sla_sweep_config_error_swallowed (now : Int) :
    checkOverdueTasks now (.error .configError)
      = .ok (⟨0, 0, 0, 0⟩, []) := rfl

/-- C10 witness: the theorem applied at a concrete clock. -/
theorem sla_sweep_config_error_swallowed_applied :
    checkOverdueTasks 1700000000 (.error .configError)
      = .ok (⟨0, 0, 0, 0⟩, []) :=
  sla_sweep_config_error_swallowed 1700000000

/-- C9: the overdue action sends exactly one standard (non-urgent)
notification, creates exactly one renewal task due 2 hours from `now` with
the original task's responsible operator, appends an audit note to the lead,
and never mutates the original task; the urgent action sends exactly one
urgent notification, appends an audit note, and creates no task; and these
are precisely the effects the sweep emits for a task it classifies overdue
resp. urgent. -/
theorem sla_actions (now : Int) (t : SLATask) :
    ((handleOverdueTask now t).filter CRMEffect.isNotify
       = [CRMEffect.whatsapp false]) ∧
    ((handleOverdueTask now t).filter CRMEffect.isCreateTask
       = [CRMEffect.createTask ("Повтор: " ++ t.text) (now + 7200)
            t.entity_id t.responsible_user_id]) ∧
    (∀ id, t.entity_id = some id →
       CRMEffect.leadNote id "SLA: Просроченная задача" ∈ handleOverdueTask now t) ∧
    ((handleOverdueTask now t).filter CRMEffect.isMutation = []) ∧
    ((handleUrgentTask t).filter CRMEffect.isNotify = [CRMEffect.whatsapp true]) ∧
    ((handleUrgentTask t).filter CRMEffect.isCreateTask = []) ∧
    (∀ id, t.entity_id = some id →
       CRMEffect.leadNote id "SLA: Критическая просрочка" ∈ handleUrgentTask t) ∧
    ((handleUrgentTask t).filter CRMEffect.isMutation = []) ∧
    (t.is_completed = false → ∀ ct, t.complete_till = some ct → ct ≠ 0 →
       (3600 ≤ now - ct → now - ct < 14400 →
          (runSweep now [t]).2 = handleOverdueTask now t) ∧
       (14400 ≤ now - ct →
          (runSweep now [t]).2 = handleUrgentTask t)) := by
  refine ⟨?_, ?_, ?_, ?_, ?_, ?_, ?_, ?_, ?_⟩
  · cases h : t.entity_id <;>
      simp [handleOverdueTask, CRMEffect.isNotify, CRMEffect.isCreateTask, h]
  · cases h : t.entity_id <;>
      simp [handleOverdueTask, CRMEffect.isNotify, CRMEffect.isCreateTask, h]
  · intro id h
    simp [handleOverdueTask, h]
  · cases h : t.entity_id <;>
      simp [handleOverdueTask, CRMEffect.isMutation, h]
  · cases h : t.entity_id <;>
      simp [handleUrgentTask, CRMEffect.isNotify, h]
  · cases h : t.entity_id <;>
      simp [handleUrgentTask, CRMEffect.isCreateTask, h]
  · intro id h
    simp [handleUrgentTask, h]
  · cases h : t.entity_id <;>
      simp [handleUrgentTask, CRMEffect.isMutation, h]
  · intro hc ct hct h0
    constructor
    · intro h h'
      have h1 : ¬ (now ≤ ct) := by omega
      have h2 : ¬ urgentElapsed now ct := by rw [urgentElapsed_iff]; omega
      have h3 : overdueElapsed now ct := (overdueElapsed_iff now ct).mpr h
      simp [runSweep, sweepStep, hc, hct, h0, h1, h2, h3]
    · intro h
      have h1 : ¬ (now ≤ ct) := by omega
      have h2 : urgentElapsed now ct := (urgentElapsed_iff now ct).mpr h
      simp [runSweep, sweepStep, hc, hct, h0, h1, h2]

/-- C4 counterexample: the claim says score ties break in favour of `nku`
over `services`.  On input with one NKU keyword and one services keyword
(a 1–1 tie) the code classifies `services`, not `nku`. -/
theorem keyword_tie_cex :
    nkuScoreOf "изготовление монтаж" "" = 1 ∧
    servicesScoreOf "изготовление монтаж" "" = 1 ∧
    (keywordDetection {} "изготовление монтаж" "").pipeline_type = .services ∧
    (PipelineType.services ≠ PipelineType.nku) := by decide

/-- C4 (amended): the fallback classifies `nku` only when the NKU score
strictly exceeds the services score (ties with a positive score go to
`services`, and `sales` is the default when both scores are zero, with fixed
confidence 0.5); for `nku`/`services` the confidence is
`min(0.7, 0.4 + 0.1 × matches)`; and text containing «изготовление»,
«мощность», «ip54» with no services keywords is classified `nku` with
confidence ≥ 0.4. -/
theorem keyword_fallback (cfg : PipelineConfig) (subject message : String) :
    (nkuScoreOf subject message > servicesScoreOf subject message ∧
        nkuScoreOf subject message > 0 →
      keywordDetection cfg subject message
        = ⟨.nku, getPipelineIdFor cfg .nku,
           min (7/10) (2/5 + (nkuScoreOf subject message : ℚ) * (1/10))⟩) ∧
    (¬(nkuScoreOf subject message > servicesScoreOf subject message ∧
          nkuScoreOf subject message > 0) →
     servicesScoreOf subject message > 0 →
      keywordDetection cfg subject message
        = ⟨.services, getPipelineIdFor cfg .services,
           min (7/10) (2/5 + (servicesScoreOf subject message : ℚ) * (1/10))⟩) ∧
    (nkuScoreOf subject message = 0 → servicesScoreOf subject message = 0 →
      keywordDetection cfg subject message
        = ⟨.sales, getPipelineIdFor cfg .sales, 1/2⟩) ∧
    (strContains (pyLower (subject ++ " " ++ message)) "изготовление" = true →
     strContains (pyLower (subject ++ " " ++ message)) "мощность" = true →
     strContains (pyLower (subject ++ " " ++ message)) "ip54" = true →
     servicesScoreOf subject message = 0 →
      (keywordDetection cfg subject message).pipeline_type = .nku ∧
      2/5 ≤ (keywordDetection cfg subject message).confidence) := by
  refine ⟨?_, ?_, ?_, ?_⟩
  · intro h
    simp only [nkuScoreOf, servicesScoreOf] at h ⊢
    unfold keywordDetection
    rw [if_pos h]
  · intro h1 h2
    simp only [nkuScoreOf, servicesScoreOf] at h1 h2 ⊢
    unfold keywordDetection
    rw [if_neg h1, if_pos h2]
  · intro hn hs
    simp only [nkuScoreOf, servicesScoreOf] at hn hs
    unfold keywordDetection
    rw [if_neg (by omega), if_neg (by omega)]
  · intro h1 _ _ hs
    have hn : 0 < nkuScoreOf subject message := by
      unfold nkuScoreOf
      exact List.countP_pos_iff.mpr ⟨"изготовление", by simp [nkuKeywords], h1⟩
    have hcond : nkuScoreOf subject message > servicesScoreOf subject message ∧
        nkuScoreOf subject message > 0 := by
      constructor
      · omega
      · exact hn
    simp only [nkuScoreOf, servicesScoreOf] at hcond
    unfold keywordDetection
    rw [if_pos hcond]
    refine ⟨rfl, ?_⟩
    refine le_min (by norm_num) ?_
    have : (0:ℚ) ≤ (List.countP
        (fun k => strContains (pyLower (subject ++ " " ++ message)) k)
        nkuKeywords : ℚ) * (1/10) := by positivity
    linarith

/-- C4 witness: the amended theorem applied at the spec's example input. -/
theorem keyword_fallback_applied :
    (keywordDetection {} "Запрос" "изготовление мощность ip54").pipeline_type
        = .nku ∧
    2/5 ≤ (keywordDetection {} "Запрос" "изготовление мощность ip54").confidence :=
  (keyword_fallback {} "Запрос" "изготовление мощность ip54").2.2.2
    (by decide) (by decide) (by decide) (by decide)

/-- C5: an incomplete lead whose most recent reminder note (found scanning
the notes in reverse for the marker phrase) is less than 24 hours old gets
no new reminder: the call reports the hours remaining and sends nothing.
A reminder at `T = 1700000000` suppresses a request at `T+10h` (14 hours
remaining) but allows one at `T+25h`, which sends the notification. -/
theorem reminder_cooldown (now leadId : Int) (defaultResp : Option Int)
    (fc : FileCheck) (notes : List LeadNote) (existingTexts : List String)
    (timeRepr : String) (last : Int)
    (hincomplete : fc.complete = false)
    (hmissing : ((fc.checklist.filter (fun p => !p.2)).map (·.1)).isEmpty = false)
    (hlast : getLastReminderTime notes = some last)
    (hrecent : now - last < 86400) :
    (checkAndRemind now leadId defaultResp fc notes existingTexts timeRepr
       = (.reminderSentRecently (24 - hoursSinceReminder now last), [])) ∧
    (checkAndRemind 1700036000 5 none sampleFileCheck sampleNotes [] "x"
       = (.reminderSentRecently 14, [])) ∧
    ((checkAndRemind 1700090000 5 none sampleFileCheck sampleNotes [] "x").1
       = .reminderSent ["proposal"]) ∧
    (CRMEffect.whatsapp false
       ∈ (checkAndRemind 1700090000 5 none sampleFileCheck sampleNotes [] "x").2) := by
  have hgen : ∀ (n l : Int) (dr : Option Int) (fc' : FileCheck)
      (ns : List LeadNote) (ex : List String) (tr : String) (la : Int),
      fc'.complete = false →
      ((fc'.checklist.filter (fun p => !p.2)).map (·.1)).isEmpty = false →
      getLastReminderTime ns = some la →
      n - la < 86400 →
      checkAndRemind n l dr fc' ns ex tr
        = (.reminderSentRecently (24 - hoursSinceReminder n la), []) := by
    intro n l dr fc' ns ex tr la hc hm hl hr
    have hcd : underCooldown n la := (underCooldown_iff n la).mpr hr
    simp [checkAndRemind, hc, hm, hl, hcd]
  refine ⟨hgen now leadId defaultResp fc notes existingTexts timeRepr last
            hincomplete hmissing hlast hrecent, ?_, by decide, by decide⟩
  rw [show (14:ℚ) = 24 - hoursSinceReminder 1700036000 1700000000 by
        unfold hoursSinceReminder; norm_num]
  exact hgen 1700036000 5 none sampleFileCheck sampleNotes [] "x" 1700000000
    (by decide) (by decide) (by decide) (by decide)

/-- C5 witness: the theorem applied at the `T+10h` instance. -/
theorem reminder_cooldown_applied :
    checkAndRemind 1700036000 5 none sampleFileCheck sampleNotes [] "x"
      = (.reminderSentRecently 14, []) :=
  (reminder_cooldown 1700036000 5 none sampleFileCheck sampleNotes [] "x"
      1700000000 (by decide) (by decide) (by decide) (by decide)).2.1

/-- C6: the failing input evaluated on the code.  The lead's only note is
the reminder note the workflow itself recorded, four full days old; the
reminder is sent (cool-down long expired), yet the urgent-severity
notification is **not** sent: `_get_days_since_first_reminder` scans for
the phrase «не хватает документов», which the recorded reminder notes never
contain (they say «Напоминание о документах … о недостающих документах»),
so it returns 0 and the 3-day escalation can never fire. -/
theorem urgent_escalation_dead :
    ((checkAndRemind 1700345600 5 none sampleFileCheck sampleNotes [] "x").1
       = .reminderSent ["proposal"]) ∧
    (getDaysSinceFirstReminder 1700345600
       (sampleNotes ++ [⟨recordedReminderNoteText "x", some 1700345600⟩]) = 0) ∧
    (CRMEffect.whatsapp true
       ∉ (checkAndRemind 1700345600 5 none sampleFileCheck sampleNotes [] "x").2) := by
  exact ⟨by decide, by decide, by decide⟩

/-- C7: document-task ensure is idempotent.  Every task created is for an
unchecked checklist entry whose exact text was absent from the lead's
tasks, is due 8 hours out and linked to the lead; and a second run against
the remote state left by the first (same checklist) creates nothing. -/
theorem ensure_document_tasks_dedup (now now2 leadId : Int)
    (respId : Option Int) (existing : List TaskRec)
    (docs : DocumentChecklist) :
    (∀ t ∈ ensureDocumentTasks now leadId respId existing docs,
        t.text ∉ existing.map (·.text) ∧
        t.complete_till = now + 28800 ∧ t.entity_id = leadId ∧
        ∃ p ∈ checklistPairs docs, p.2 = false ∧ t.text = "Отправить: " ++ p.1) ∧
    ensureDocumentTasks now2 leadId respId
        (existing ++ ensureDocumentTasks now leadId respId existing docs)
        docs = [] := by
  constructor
  · intro t ht
    unfold ensureDocumentTasks at ht
    obtain ⟨p, hp, hf⟩ := List.mem_filterMap.mp ht
    cases hb : p.2 with
    | true => simp [hb] at hf
    | false =>
      by_cases hmem : ("Отправить: " ++ p.1) ∈ existing.map (·.text)
      · simp [hb, hmem] at hf
      · simp only [hb, hmem, if_false, Bool.false_eq_true, if_neg,
          not_false_eq_true, Option.some.injEq] at hf
        subst hf
        exact ⟨hmem, rfl, rfl, ⟨p, hp, hb, rfl⟩⟩
  · show (checklistPairs docs).filterMap (fun p : String × Bool =>
        if p.2 then none
        else if ("Отправить: " ++ p.1)
            ∈ (existing ++ ensureDocumentTasks now leadId respId existing docs).map
                (·.text) then none
        else some (⟨"Отправить: " ++ p.1, now2 + 28800, leadId, respId⟩ : TaskRec)) = []
    rw [List.filterMap_eq_nil_iff]
    intro p hp
    cases hb : p.2 with
    | true => simp
    | false =>
      by_cases hmem : ("Отправить: " ++ p.1) ∈ existing.map (·.text)
      · have hcond : ("Отправить: " ++ p.1)
            ∈ (existing ++ ensureDocumentTasks now leadId respId existing docs).map
                (·.text) := by
          rw [List.map_append]
          exact List.mem_append.mpr (Or.inl hmem)
        rw [if_neg Bool.false_ne_true, if_pos hcond]
      · have hcreated : (⟨"Отправить: " ++ p.1, now + 28800, leadId, respId⟩ : TaskRec)
            ∈ ensureDocumentTasks now leadId respId existing docs := by
          unfold ensureDocumentTasks
          exact List.mem_filterMap.mpr ⟨p, hp, by simp [hb, hmem]⟩
        have htext : ("Отправить: " ++ p.1)
            ∈ (ensureDocumentTasks now leadId respId existing docs).map (·.text) :=
          List.mem_map.mpr ⟨_, hcreated, rfl⟩
        have hcond : ("Отправить: " ++ p.1)
            ∈ (existing ++ ensureDocumentTasks now leadId respId existing docs).map
                (·.text) := by
          rw [List.map_append]
          exact List.mem_append.mpr (Or.inr htext)
        rw [if_neg Bool.false_ne_true, if_pos hcond]

/-- C7 witness: two runs at a concrete state; the second creates nothing. -/
theorem ensure_document_tasks_dedup_applied :
    ensureDocumentTasks 200 9 none
        ([] ++ ensureDocumentTasks 100 9 none [] {}) {} = [] :=
  (ensure_document_tasks_dedup 100 200 9 none [] {}).2

/-- C8: when a truthy detected pipeline id differs from the configured
default, the detected id is used for lead resolution only; the configured
id is restored afterwards — also when lead resolution raises — so a
subsequent call observes the original configuration unchanged. -/
theorem pipeline_scoping (s : CrmConfigState) (detected : Option Int)
    (resolve : Option Int → Except CRMError Int)
    (htruthy : pyTruthyOptInt detected = true)
    (_h2 : detected ≠ s.pipeline_id) :
    ((withDetectedPipeline s detected resolve).2 = s) ∧
    ((withDetectedPipeline s detected resolve).1 = resolve detected) ∧
    (∀ e, resolve detected = .error e →
       withDetectedPipeline s detected resolve = (.error e, s)) := by
  refine ⟨?_, ?_, ?_⟩
  · simp [withDetectedPipeline, htruthy]
  · simp [withDetectedPipeline, htruthy]
  · intro e he
    simp [withDetectedPipeline, htruthy, he]

/-- C8 witness: the theorem applied where lead resolution raises. -/
theorem pipeline_scoping_applied :
    withDetectedPipeline ⟨some 1⟩ (some 2) (fun _ => .error .runtimeError)
      = (.error .runtimeError, ⟨some 1⟩) :=
  (pipeline_scoping ⟨some 1⟩ (some 2) (fun _ => .error .runtimeError)
    (by decide) (by decide)).2.2 .runtimeError rfl

/-- C9 witness: the theorem applied at a concrete overdue task. -/
theorem sla_actions_applied :
    CRMEffect.leadNote 7 "SLA: Просроченная задача"
      ∈ handleOverdueTask 1700007200
          ({ is_completed := false, complete_till := some 1700000000,
             text := "t", entity_id := some 7 } : SLATask) :=
  (sla_actions 1700007200
    ({ is_completed := false, complete_till := some 1700000000,
       text := "t", entity_id := some 7 } : SLATask)).2.2.1 7 rfl

end Retro
